import Mathlib

/-
Verification of the multi-credential rate-limited dispatch engine and its
checkpoint/resume subsystem, as implemented in `add_league_tier_resume.py`
(with the sibling variants `add_league_tier.py` and `fetch_stratz_optimized.py`).
Time is modelled as an exact integer clock counting tenths of a second
(deciseconds): every duration in the source — the window lengths 1s/60s/1h/1d,
the 0.1s retry margin, the fixed 2s and exponential 2^attempt backoffs — is a
whole number of deciseconds, so the float arithmetic of the source becomes
exact integer arithmetic (1s = 10, 60s = 600, 1h = 36000, 1d = 864000).
The remote service is modelled as an oracle assigning each attempt index its
outcome.
-/

set_option maxHeartbeats 1600000
set_option maxRecDepth 20000

namespace StratzSpec

/-! ## JSON values

`save_checkpoint` serialises a Python dict with `json.dump` and
`load_checkpoint` reads it back with `json.load`.  We model the serialised
content as a structured JSON value; the checkpoint file holds either such a
value or nothing. -/

inductive Json where
  | null : Json
  | boolean : Bool → Json
  | num : ℤ → Json
  | str : String → Json
  | arr : List Json → Json
  | obj : List (String × Json) → Json

/-- Field access on a JSON object (`checkpoint['key']` on a parsed dict);
`none` models a KeyError or a non-dict value. -/
def Json.getField : Json → String → Option Json
  | Json.obj fields, k => (fields.find? (fun p => p.1 == k)).map (fun p => p.2)
  | _, _ => none

/-! ## Checkpoint subsystem (`add_league_tier_resume.py`, lines 242-269 and 296-308) -/

/-- `CHECKPOINT_FILE = "stratz_checkpoint.json"` (line 35). -/
def CHECKPOINT_FILE : String := "stratz_checkpoint.json"

/-- The `stats` dict passed to `save_checkpoint` (lines 352-356):
`total_calls`, `failed_calls`, `network_errors`. -/
structure Stats where
  total_calls : ℕ
  failed_calls : ℕ
  network_errors : ℕ

def statsToJson (s : Stats) : Json :=
  Json.obj [("total_calls", Json.num s.total_calls),
            ("failed_calls", Json.num s.failed_calls),
            ("network_errors", Json.num s.network_errors)]

/-- The JSON value written by `save_checkpoint` (lines 255-267): the dict
built at lines 257-264, with `processed = len(processed_ids)` and
`total = len(matches)`.  The result store `matches` is a mapping from match
id to its (arbitrary JSON) record. -/
def save_checkpoint (matchesMap : List (String × Json)) (processed_ids : List String)
    (stats : Stats) (timestamp : ℤ) : Json :=
  Json.obj [("processed", Json.num processed_ids.length),
            ("total", Json.num matchesMap.length),
            ("processed_ids", Json.arr (processed_ids.map Json.str)),
            ("timestamp", Json.num timestamp),
            ("stats", statsToJson stats),
            ("matches", Json.obj matchesMap)]

/-- `load_checkpoint` (lines 242-252): returns the parsed checkpoint if the
file exists and parsing succeeds.  The success-path print accesses
`checkpoint['processed']` and `checkpoint['total']`; a missing key raises
KeyError, caught by the bare `except` which returns `None`. -/
def load_checkpoint (file : Option Json) : Option Json :=
  match file with
  | none => none
  | some cp =>
    if (cp.getField "processed").isSome && (cp.getField "total").isSome then some cp
    else none

/-- Extraction of `checkpoint['matches']` performed on resume
(`process_matches`, line 300). -/
def resume_matches (cp : Json) : Option (List (String × Json)) :=
  match cp.getField "matches" with
  | some (Json.obj m) => some m
  | _ => none

/-- Decode a JSON array of strings (the saved `processed_ids`). -/
def strList : List Json → Option (List String)
  | [] => some []
  | Json.str s :: rest => (strList rest).map (fun l => s :: l)
  | _ => none

/-- Extraction of `set(checkpoint['processed_ids'])` performed on resume
(`process_matches`, line 301); the elements are the saved id strings. -/
def resume_processed_ids (cp : Json) : Option (List String) :=
  match cp.getField "processed_ids" with
  | some (Json.arr l) => strList l
  | _ => none

/-- The remaining work list built on resume (`process_matches`, line 302):
`[mid for mid in matches.keys() if mid not in processed_ids]`. -/
def resume_match_ids (matchesMap : List (String × Json)) (processed_ids : List String) :
    List String :=
  (matchesMap.map Prod.fst).filter (fun mid => decide (mid ∉ processed_ids))

/-! ### File-system operation trace of `save_checkpoint`

`save_checkpoint` performs `open(CHECKPOINT_FILE, 'w')` — which truncates any
existing file at that path — followed by `json.dump` into that handle
(lines 266-267).  We record the sequence of file-system operations it issues. -/

inductive FileOp where
  | openTruncate : String → FileOp
  | writeContent : String → Json → FileOp
  | renameFile : String → String → FileOp

/-- The path a file-system operation targets (for a rename, the destination). -/
def FileOp.path : FileOp → String
  | FileOp.openTruncate p => p
  | FileOp.writeContent p _ => p
  | FileOp.renameFile _ dst => dst

def FileOp.isRenameFile : FileOp → Bool
  | FileOp.renameFile _ _ => true
  | _ => false

/-- The file-system operations issued by one invocation of `save_checkpoint`
(lines 266-267): a truncating open of `CHECKPOINT_FILE` followed by a write of
the serialised checkpoint into the same path. -/
def save_checkpoint_ops (matchesMap : List (String × Json)) (processed_ids : List String)
    (stats : Stats) (timestamp : ℤ) : List FileOp :=
  [FileOp.openTruncate CHECKPOINT_FILE,
   FileOp.writeContent CHECKPOINT_FILE (save_checkpoint matchesMap processed_ids stats timestamp)]

/-! ## RateLimitTracker (`add_league_tier_resume.py`, lines 26-94)

The Python `clean_old_calls` reassigns each window's list to its pruned
version.  Since every read (`can_make_call`, `time_until_available`,
`get_stats`) prunes before reading and the clock is monotone, this mutation is
observationally irrelevant: we model `clean_old_calls` as a pure function and
the two reads as pure value functions that prune internally; lemma
`clean_preserves_window` below proves the discarded pruning cannot change any
later read. -/

/-- `RATE_LIMITS` (lines 26-31). -/
def RATE_LIMITS_second : ℕ := 15

def RATE_LIMITS_minute : ℕ := 200

def RATE_LIMITS_hour : ℕ := 1600

def RATE_LIMITS_day : ℕ := 8000

/-- Per-key call log across the four time windows (lines 38-53). -/
structure RateLimitTracker where
  calls_second : List ℤ
  calls_minute : List ℤ
  calls_hour : List ℤ
  calls_day : List ℤ
deriving DecidableEq, Repr

def emptyTracker : RateLimitTracker := ⟨[], [], [], []⟩

/-- `record_call` (lines 48-53): append the current time to every window. -/
def RateLimitTracker.record_call (tr : RateLimitTracker) (now : ℤ) : RateLimitTracker :=
  ⟨tr.calls_second ++ [now], tr.calls_minute ++ [now],
   tr.calls_hour ++ [now], tr.calls_day ++ [now]⟩

/-- `clean_old_calls` (lines 55-60): keep, in each window, only the
timestamps `t` with `now - t < duration`. -/
def RateLimitTracker.clean_old_calls (tr : RateLimitTracker) (now : ℤ) : RateLimitTracker :=
  ⟨tr.calls_second.filter (fun t => decide (now - t < 10)),
   tr.calls_minute.filter (fun t => decide (now - t < 600)),
   tr.calls_hour.filter (fun t => decide (now - t < 36000)),
   tr.calls_day.filter (fun t => decide (now - t < 864000))⟩

/-- `can_make_call` (lines 62-69): prune, then demand every window's count be
strictly below its limit. -/
def RateLimitTracker.can_make_call (tr : RateLimitTracker) (now : ℤ) : Bool :=
  let c := tr.clean_old_calls now
  decide (c.calls_second.length < RATE_LIMITS_second) &&
  decide (c.calls_minute.length < RATE_LIMITS_minute) &&
  decide (c.calls_hour.length < RATE_LIMITS_hour) &&
  decide (c.calls_day.length < RATE_LIMITS_day)

/-- The `wait_times` list built by `time_until_available` (lines 74-83): one
entry per saturated window, `duration - (now - oldest_kept_timestamp)`.
`headI` models `list[0]`, in range because a saturated window is nonempty. -/
def RateLimitTracker.waitTimes (tr : RateLimitTracker) (now : ℤ) : List ℤ :=
  let c := tr.clean_old_calls now
  (if RATE_LIMITS_second ≤ c.calls_second.length
    then [10 - (now - c.calls_second.headI)] else [])
  ++ (if RATE_LIMITS_minute ≤ c.calls_minute.length
    then [600 - (now - c.calls_minute.headI)] else [])
  ++ (if RATE_LIMITS_hour ≤ c.calls_hour.length
    then [36000 - (now - c.calls_hour.headI)] else [])
  ++ (if RATE_LIMITS_day ≤ c.calls_day.length
    then [864000 - (now - c.calls_day.headI)] else [])

/-- `time_until_available` (lines 71-85): `max(wait_times)` if any window is
saturated, else `0`. -/
def RateLimitTracker.time_until_available (tr : RateLimitTracker) (now : ℤ) : ℤ :=
  match tr.waitTimes now with
  | [] => 0
  | w :: ws => ws.foldl max w

/-- Number of recorded timestamps of `l` inside the trailing window of
duration `W` ending at `now` (the sliding-window count the limits refer to). -/
def windowCount (l : List ℤ) (now W : ℤ) : ℕ :=
  (l.filter (fun t => decide (now - t < W))).length

/-! ## The dispatch engine (`StratzAPIClient`, lines 97-239)

The remote service is modelled as an oracle mapping each attempt index to the
outcome the `scraper.post` call at that attempt produces: a raised exception,
or a response classified exactly as the code classifies it. -/

/-- The `league` sub-object of a match (`id`, `displayName`, `tier`); a present
value models a truthy (non-empty) dict. -/
structure LeagueInfo where
  id : Option Int
  displayName : Option String
  tier : Option Int
deriving DecidableEq, Repr

/-- The dict returned on the success path (lines 219-223). -/
structure LeagueData where
  leagueId : Option Int
  leagueName : Option String
  leagueTier : Option Int
deriving DecidableEq, Repr

/-- Outcome of one `scraper.post` attempt, as classified by lines 182-225:
a raised exception (line 227), HTTP 429, HTTP 401, another non-200 status,
a 200 whose body has an `errors` key, a 200 whose `data.match` is truthy
(carrying `leagueId` and the `league` object), or a 200 without a match. -/
inductive AttemptOutcome where
  | exnRaised : AttemptOutcome
  | status429 : AttemptOutcome
  | status401 : AttemptOutcome
  | statusOther : AttemptOutcome
  | gqlErrors : AttemptOutcome
  | matchFound : Option Int → Option LeagueInfo → AttemptOutcome
  | matchMissing : AttemptOutcome
deriving DecidableEq, Repr

/-- The dict built at lines 219-223 from a truthy `data.match`:
`leagueName`/`leagueTier` read the `league` object only when it is truthy. -/
def parse_match (leagueId : Option Int) (league : Option LeagueInfo) : LeagueData :=
  { leagueId := leagueId
  , leagueName := match league with
      | some lg => lg.displayName
      | none => none
  , leagueTier := match league with
      | some lg => lg.tier
      | none => none }

/-- `StratzAPIClient` mutable state (lines 98-105): keys, one tracker per key,
the rotating current index and the three counters. -/
structure ClientState where
  api_keys : List String
  trackers : List RateLimitTracker
  current_key_index : ℕ
  total_calls : ℕ
  failed_calls : ℕ
  network_errors : ℕ
deriving DecidableEq, Repr

/-- Fresh client over the given keys (lines 98-105). -/
def initClient (keys : List String) : ClientState :=
  ⟨keys, keys.map (fun _ => emptyTracker), 0, 0, 0, 0⟩

def ClientState.tracker (cs : ClientState) (i : ℕ) : RateLimitTracker :=
  cs.trackers.getD i emptyTracker

/-- `get_available_key_index` (lines 111-119): prefer the current key, else
scan all keys in order, else `None`. -/
def get_available_key_index (cs : ClientState) (now : ℤ) : Option ℕ :=
  if (cs.tracker cs.current_key_index).can_make_call now then
    some cs.current_key_index
  else
    (List.range cs.api_keys.length).find?
      (fun i => (cs.tracker i).can_make_call now)

/-- Minimum of a wait-time list (`min(wait_times)`, defined on nonempty input;
`0` stands for the impossible empty case). -/
def minList : List ℤ → ℤ
  | [] => 0
  | x :: xs => xs.foldl min x

/-- `wait_for_available_key` (lines 121-135): loop until a key is available,
sleeping `min_wait + 0.1` (or `0.1`) each round — one decisecond of margin —
and `time.sleep` advances the clock.  The `while True` loop is given explicit fuel; `none` means the fuel
ran out before a key became available. -/
def wait_for_available_key : ℕ → ClientState → ℤ → Option (ℕ × ClientState × ℤ)
  | 0, _, _ => none
  | fuel + 1, cs, now =>
    match get_available_key_index cs now with
    | some i => some (i, { cs with current_key_index := i }, now)
    | none =>
      let min_wait := minList (cs.trackers.map (fun tr => tr.time_until_available now))
      if 0 < min_wait then
        wait_for_available_key fuel cs (now + min_wait + 1)
      else
        wait_for_available_key fuel cs (now + 1)

/-- `trackers[key_idx].record_call(); total_calls += 1` (lines 190-191). -/
def recordOn (cs : ClientState) (key : ℕ) (now : ℤ) : ClientState :=
  { cs with
    trackers := cs.trackers.set key ((cs.tracker key).record_call now)
  , total_calls := cs.total_calls + 1 }

/-- `current_key_index = (current_key_index + 1) % len(api_keys)`
(lines 195 and 201). -/
def rotateKey (cs : ClientState) : ClientState :=
  { cs with current_key_index := (cs.current_key_index + 1) % cs.api_keys.length }

def bumpFailed (cs : ClientState) : ClientState :=
  { cs with failed_calls := cs.failed_calls + 1 }

/-- `max_retries = 5` (line 180). -/
def max_retries : ℕ := 5

/-- Result of the retry loop: the returned dict (`none` models the empty dict
`{}`, `some d` the three-field dict, which is truthy even when all fields are
`None`), the client state, the clock, and the number of attempts executed. -/
structure LoopResult where
  result : Option LeagueData
  client : ClientState
  time : ℤ
  attemptsUsed : ℕ
deriving DecidableEq, Repr

/-- The retry loop of `fetch_single_match_league_data` (lines 181-239).
`attempt` is the Python loop index, `remaining` the attempts left
(`max_retries - attempt` at the top call); recursion is on `remaining`, the
guards compare `attempt < max_retries - 1` exactly as the source does.
Branches, in source order: 429 rotates, sleeps 2 and continues (line 193);
401 rotates and returns `{}` (line 199); another non-200 status backs off
`2^attempt` and retries, or returns `{}` (line 204); an `errors` body returns
`{}` (line 213); a truthy match returns the parsed dict (line 217); a missing
match returns `{}` (line 225); an exception backs off `min(2^attempt, 30)`
and retries, or returns `{}` (line 227); loop exhaustion returns `{}`
(line 239).  `record_call` runs only on attempts that produced a response
(line 190). -/
def fetchLoop (oracle : ℕ → AttemptOutcome) (key_idx : ℕ) :
    ℕ → ℕ → ClientState → ℤ → LoopResult
  | _, 0, cs, now => ⟨none, cs, now, 0⟩
  | attempt, remaining + 1, cs, now =>
    match oracle attempt with
    | AttemptOutcome.exnRaised =>
      let cs1 := { cs with network_errors := cs.network_errors + 1 }
      if attempt < max_retries - 1 then
        let wait_time : ℤ := min (10 * (2 : ℤ) ^ attempt) 300
        let r := fetchLoop oracle key_idx (attempt + 1) remaining cs1 (now + wait_time)
        { r with attemptsUsed := r.attemptsUsed + 1 }
      else ⟨none, cs1, now, 1⟩
    | AttemptOutcome.status429 =>
      let cs1 := rotateKey (bumpFailed (recordOn cs key_idx now))
      let r := fetchLoop oracle key_idx (attempt + 1) remaining cs1 (now + 20)
      { r with attemptsUsed := r.attemptsUsed + 1 }
    | AttemptOutcome.status401 =>
      ⟨none, rotateKey (bumpFailed (recordOn cs key_idx now)), now, 1⟩
    | AttemptOutcome.statusOther =>
      let cs1 := bumpFailed (recordOn cs key_idx now)
      if attempt < max_retries - 1 then
        let r := fetchLoop oracle key_idx (attempt + 1) remaining cs1 (now + 10 * (2 : ℤ) ^ attempt)
        { r with attemptsUsed := r.attemptsUsed + 1 }
      else ⟨none, cs1, now, 1⟩
    | AttemptOutcome.gqlErrors =>
      ⟨none, bumpFailed (recordOn cs key_idx now), now, 1⟩
    | AttemptOutcome.matchFound leagueId league =>
      ⟨some (parse_match leagueId league), recordOn cs key_idx now, now, 1⟩
    | AttemptOutcome.matchMissing =>
      ⟨none, recordOn cs key_idx now, now, 1⟩

/-- `fetch_single_match_league_data` (lines 152-239): acquire a key via
`wait_for_available_key` (the only acquisition — retries reuse `key_idx`),
then run the retry loop.  `none` only when the acquisition fuel runs out. -/
def fetch_single_match_league_data (oracle : ℕ → AttemptOutcome) (fuel : ℕ)
    (cs : ClientState) (now : ℤ) : Option LoopResult :=
  match wait_for_available_key fuel cs now with
  | none => none
  | some (key_idx, cs1, now1) => some (fetchLoop oracle key_idx 0 max_retries cs1 now1)

/-- Merge step of `process_matches` (lines 331-340): a truthy fetch result is
written into the item's record as-is; a falsy one (the empty dict) writes the
explicit all-`None` marker. -/
def merge_league_data (r : Option LeagueData) : LeagueData :=
  match r with
  | some d => d
  | none => ⟨none, none, none⟩

/-- Count, among `n` consecutive attempts starting at index `start`, those
whose outcome is a response (not a raised exception). -/
def countResponses (oracle : ℕ → AttemptOutcome) (start : ℕ) : ℕ → ℕ
  | 0 => 0
  | n + 1 =>
    (if oracle start = AttemptOutcome.exnRaised then 0 else 1)
      + countResponses oracle (start + 1) n

/-! ### Concrete runs used by counterexamples and witnesses -/

/-- Three network exceptions, then a successful response with league data. -/
def oracleExn3 : ℕ → AttemptOutcome := fun i =>
  if i < 3 then AttemptOutcome.exnRaised
  else AttemptOutcome.matchFound (some 100) (some ⟨some 100, some "Major", some 2⟩)

/-- A 429 on the first attempt, then a match-less success. -/
def oracle429Once : ℕ → AttemptOutcome := fun i =>
  if i = 0 then AttemptOutcome.status429 else AttemptOutcome.matchMissing

/-- Every attempt raises an exception. -/
def oracleAllExn : ℕ → AttemptOutcome := fun _ => AttemptOutcome.exnRaised

/-- A single successful response for a match that exists but has no league. -/
def oracleNoLeague : ℕ → AttemptOutcome := fun _ =>
  AttemptOutcome.matchFound none none

/-- Every attempt is rejected with HTTP 401. -/
def oracle401 : ℕ → AttemptOutcome := fun _ => AttemptOutcome.status401

/-- 199 call timestamps the engine itself could have produced: bursts of 15
calls 1.1 seconds apart, at instants 0, 11, 22, ..., 143 deciseconds (the
acquire check permits at most 15 per trailing second, and the saturation wait
is 1s plus the 0.1s margin). -/
def burstTimes : List ℤ := (List.range 199).map (fun k => ((k / 15 : ℕ) : ℤ) * 11)

/-- A single-key client whose tracker holds the 199 burst calls. -/
def clientNearMinuteLimit : ClientState :=
  ⟨["key0"], [⟨burstTimes, burstTimes, burstTimes, burstTimes⟩], 0, 199, 0, 0⟩

/-- A two-key client with fresh trackers. -/
def clientTwoKeys : ClientState := initClient ["key0", "key1"]

/-- A tracker that recorded 16 calls inside the current second: one at
instant 0 and fifteen at instant 5 (half a second; reachable, since
`record_call` never refuses). -/
def overfullTracker : RateLimitTracker :=
  let l : List ℤ := 0 :: List.replicate 15 5
  ⟨l, l, l, l⟩

/-! ### Witness inputs -/

def wMatches : List (String × Json) := [("1", Json.null), ("2", Json.null)]

def wPids : List String := ["1"]

def wStats : Stats := ⟨3, 1, 0⟩

/-- A tracker with one call recorded at time 0. -/
def wTracker : RateLimitTracker := ⟨[0], [0], [0], [0]⟩

/-! ## Helper lemmas -/

theorem strList_map_str (l : List String) : strList (l.map Json.str) = some l := by
  induction l with
  | nil => rfl
  | cons x xs ih => simp [strList, ih]

theorem headI_mem {α : Type} [Inhabited α] {l : List α} (h : l ≠ []) : l.headI ∈ l := by
  cases l with
  | nil => exact absurd rfl h
  | cons a as => exact List.mem_cons_self a as

theorem filter_length_mono {α : Type} {p q : α → Bool} (l : List α)
    (h : ∀ x, p x = true → q x = true) :
    (l.filter p).length ≤ (l.filter q).length := by
  induction l with
  | nil => exact Nat.le_refl 0
  | cons a as ih =>
    simp only [List.filter_cons]
    by_cases hp : p a = true
    · rw [if_pos hp, if_pos (h a hp)]
      simpa using ih
    · rw [if_neg hp]
      split
      · exact Nat.le_succ_of_le ih
      · exact ih

theorem filter_filter_of_imp {α : Type} {p q : α → Bool} (l : List α)
    (h : ∀ x, p x = true → q x = true) :
    (l.filter q).filter p = l.filter p := by
  induction l with
  | nil => rfl
  | cons a as ih =>
    by_cases hq : q a = true
    · by_cases hp : p a = true
      · simp [List.filter_cons, hq, hp, ih]
      · simp [List.filter_cons, hq, hp, ih]
    · have hp : ¬ p a = true := fun hp => hq (h a hp)
      simp [List.filter_cons, hq, hp, ih]

/-- Pruning at an earlier instant never changes what a later read keeps:
the Python mutation inside each read is observationally irrelevant. -/
theorem clean_preserves_window (l : List ℤ) (now now' W : ℤ) (hle : now ≤ now') :
    (l.filter (fun t => decide (now - t < W))).filter (fun t => decide (now' - t < W))
      = l.filter (fun t => decide (now' - t < W)) := by
  refine filter_filter_of_imp l ?_
  intro x hx
  have hx' := of_decide_eq_true hx
  exact decide_eq_true (by linarith)

theorem filter_length_lt_of_mem_not {α : Type} {p : α → Bool} {l : List α} {x : α}
    (hx : x ∈ l) (hpx : p x = false) : (l.filter p).length < l.length := by
  induction l with
  | nil => cases hx
  | cons a as ih =>
    rcases List.mem_cons.mp hx with h | h
    · subst h
      rw [List.filter_cons, if_neg (by simp [hpx])]
      exact Nat.lt_succ_of_le (List.length_filter_le p as)
    · by_cases hp : p a = true
      · rw [List.filter_cons, if_pos hp]
        exact Nat.succ_lt_succ (ih h)
      · rw [List.filter_cons, if_neg hp]
        exact Nat.lt_succ_of_lt (ih h)

theorem foldl_max_init_le (l : List ℤ) (a : ℤ) : a ≤ l.foldl max a := by
  induction l generalizing a with
  | nil => exact le_refl a
  | cons b bs ih => exact le_trans (le_max_left a b) (ih (max a b))

theorem foldl_max_le_of_mem {l : List ℤ} {x : ℤ} (a : ℤ) (h : x ∈ l) :
    x ≤ l.foldl max a := by
  induction l generalizing a with
  | nil => cases h
  | cons b bs ih =>
    rcases List.mem_cons.mp h with h | h
    · subst h
      exact le_trans (le_max_right a x) (foldl_max_init_le bs (max a x))
    · exact ih (max a b) h

/-- Every element of the `wait_times` list is bounded by the returned
maximum. -/
theorem mem_waitTimes_le {tr : RateLimitTracker} {now x : ℤ}
    (h : x ∈ tr.waitTimes now) : x ≤ tr.time_until_available now := by
  have heq : tr.time_until_available now =
      match tr.waitTimes now with
      | [] => 0
      | w :: ws => ws.foldl max w := rfl
  cases hw : tr.waitTimes now with
  | nil => rw [hw] at h; cases h
  | cons w ws =>
    rw [heq, hw]
    rw [hw] at h
    rcases List.mem_cons.mp h with h | h
    · subst h
      exact foldl_max_init_le ws x
    · exact foldl_max_le_of_mem w h

/-- A saturated window's `wait_times` entry is strictly positive, because the
window was pruned first and so its oldest kept timestamp is younger than the
window duration. -/
theorem wait_entry_pos (l : List ℤ) (now W : ℤ) (L : ℕ) (hL : 0 < L)
    (hsat : L ≤ (l.filter (fun t => decide (now - t < W))).length) :
    0 < W - (now - (l.filter (fun t => decide (now - t < W))).headI) := by
  set c := l.filter (fun t => decide (now - t < W)) with hc
  have hne : c ≠ [] := by
    intro hnil
    rw [hnil] at hsat
    simp at hsat
    omega
  have hmem : c.headI ∈ c := headI_mem hne
  have hyoung := of_decide_eq_true (List.mem_filter.mp hmem).2
  linarith

theorem waitTimes_pos {tr : RateLimitTracker} {now x : ℤ}
    (h : x ∈ tr.waitTimes now) : 0 < x := by
  simp only [RateLimitTracker.waitTimes, List.mem_append] at h
  rcases h with ((h | h) | h) | h <;> split at h <;>
    simp only [List.mem_singleton, List.not_mem_nil] at h <;> try exact absurd h (by simp)
  all_goals subst h
  · exact wait_entry_pos _ now 10 RATE_LIMITS_second (by decide) (by assumption)
  · exact wait_entry_pos _ now 600 RATE_LIMITS_minute (by decide) (by assumption)
  · exact wait_entry_pos _ now 36000 RATE_LIMITS_hour (by decide) (by assumption)
  · exact wait_entry_pos _ now 864000 RATE_LIMITS_day (by decide) (by assumption)

theorem time_until_available_nonneg (tr : RateLimitTracker) (now : ℤ) :
    0 ≤ tr.time_until_available now := by
  have heq : tr.time_until_available now =
      match tr.waitTimes now with
      | [] => 0
      | w :: ws => ws.foldl max w := rfl
  cases hw : tr.waitTimes now with
  | nil => rw [heq, hw]
  | cons w ws =>
    rw [heq, hw]
    have hmem : w ∈ tr.waitTimes now := by
      rw [hw]
      exact List.mem_cons_self w ws
    exact le_trans (le_of_lt (waitTimes_pos hmem)) (foldl_max_init_le ws w)

/-- `can_make_call` is true exactly when every pruned window count is
strictly below its limit. -/
theorem can_make_call_iff (tr : RateLimitTracker) (now : ℤ) :
    tr.can_make_call now = true ↔
      ((tr.clean_old_calls now).calls_second.length < RATE_LIMITS_second ∧
       (tr.clean_old_calls now).calls_minute.length < RATE_LIMITS_minute ∧
       (tr.clean_old_calls now).calls_hour.length < RATE_LIMITS_hour ∧
       (tr.clean_old_calls now).calls_day.length < RATE_LIMITS_day) := by
  simp [RateLimitTracker.can_make_call, Bool.and_eq_true, decide_eq_true_eq, and_assoc]

/-- After advancing the clock by at least the saturated window's wait, the
window count drops strictly below the limit, provided the window was not
holding more timestamps than its limit. -/
theorem window_clears_at (l : List ℤ) (now t W : ℤ) (L : ℕ) (hL : 0 < L) (ht : 0 ≤ t)
    (hcount : (l.filter (fun x => decide (now - x < W))).length ≤ L)
    (hwait : L ≤ (l.filter (fun x => decide (now - x < W))).length →
        W - (now - (l.filter (fun x => decide (now - x < W))).headI) ≤ t) :
    (l.filter (fun x => decide (now + t - x < W))).length < L := by
  set c := l.filter (fun x => decide (now - x < W)) with hc
  have himp : ∀ x : ℤ, decide (now + t - x < W) = true → decide (now - x < W) = true := by
    intro x hx
    have hx' := of_decide_eq_true hx
    exact decide_eq_true (by linarith)
  rcases Nat.lt_or_ge c.length L with hlt | hge
  · exact Nat.lt_of_le_of_lt (filter_length_mono l himp) hlt
  · have hwt := hwait hge
    have hne : c ≠ [] := by
      intro hnil
      rw [hnil] at hge
      simp at hge
      omega
    have hmem : c.headI ∈ c := headI_mem hne
    have hdrop : (fun x => decide (now + t - x < W)) c.headI = false := by
      simp only [decide_eq_false_iff_not]
      intro hlt'
      linarith
    rw [← filter_filter_of_imp l himp]
    exact Nat.lt_of_lt_of_le (filter_length_lt_of_mem_not hmem hdrop) hcount

/-- A guarded slide of the window count: advancing the clock never increases
it, and appending the current timestamp adds at most one. -/
theorem guarded_record_window (l : List ℤ) (now now' W : ℤ) (L : ℕ)
    (hlt : (l.filter (fun x => decide (now - x < W))).length < L) (hle : now ≤ now') :
    windowCount (l ++ [now]) now' W ≤ L := by
  unfold windowCount
  rw [List.filter_append, List.length_append]
  have h1 : (l.filter (fun x => decide (now' - x < W))).length ≤
      (l.filter (fun x => decide (now - x < W))).length := by
    refine filter_length_mono l ?_
    intro x hx
    have hx' := of_decide_eq_true hx
    exact decide_eq_true (by linarith)
  have h2 : (([now] : List ℤ).filter (fun x => decide (now' - x < W))).length ≤ 1 :=
    List.length_filter_le _ _
  omega

/-! ### Helper lemmas for the dispatch loop -/

theorem getD_set_self {α : Type} (l : List α) (k : ℕ) (x d : α) (h : k < l.length) :
    (l.set k x).getD k d = x := by
  induction l generalizing k with
  | nil => cases h
  | cons a as ih =>
    cases k with
    | zero => rfl
    | succ n => exact ih n (Nat.lt_of_succ_lt_succ h)

/-- The retry loop executes at most `remaining` attempts. -/
theorem fetchLoop_attemptsUsed_le (oracle : ℕ → AttemptOutcome) (key : ℕ) :
    ∀ (remaining attempt : ℕ) (cs : ClientState) (now : ℤ),
    (fetchLoop oracle key attempt remaining cs now).attemptsUsed ≤ remaining := by
  intro remaining
  induction remaining with
  | zero =>
    intro attempt cs now
    simp [fetchLoop]
  | succ r ih =>
    intro attempt cs now
    cases h : oracle attempt with
    | exnRaised =>
      by_cases ha : attempt < max_retries - 1
      · simp only [fetchLoop, h, if_pos ha]
        exact Nat.succ_le_succ (ih (attempt + 1) _ _)
      · simp [fetchLoop, h, if_neg ha]
    | status429 =>
      simp only [fetchLoop, h]
      exact Nat.succ_le_succ (ih (attempt + 1) _ _)
    | status401 => simp [fetchLoop, h]
    | statusOther =>
      by_cases ha : attempt < max_retries - 1
      · simp only [fetchLoop, h, if_pos ha]
        exact Nat.succ_le_succ (ih (attempt + 1) _ _)
      · simp [fetchLoop, h, if_neg ha]
    | gqlErrors => simp [fetchLoop, h]
    | matchFound a b => simp [fetchLoop, h]
    | matchMissing => simp [fetchLoop, h]

/-- If every attempt raises, the loop returns the empty dict. -/
theorem fetchLoop_result_none_of_all_exn (oracle : ℕ → AttemptOutcome) (key : ℕ)
    (hexn : ∀ i, oracle i = AttemptOutcome.exnRaised) :
    ∀ (remaining attempt : ℕ) (cs : ClientState) (now : ℤ),
    (fetchLoop oracle key attempt remaining cs now).result = none := by
  intro remaining
  induction remaining with
  | zero =>
    intro attempt cs now
    simp [fetchLoop]
  | succ r ih =>
    intro attempt cs now
    by_cases ha : attempt < max_retries - 1
    · simp only [fetchLoop, hexn attempt, if_pos ha]
      exact ih (attempt + 1) _ _
    · simp [fetchLoop, hexn attempt, if_neg ha]

/-- The loop's behaviour depends only on the oracle values at the attempt
indices it can reach. -/
theorem fetchLoop_oracle_agree (o₁ o₂ : ℕ → AttemptOutcome) (key : ℕ) :
    ∀ (remaining attempt : ℕ) (cs : ClientState) (now : ℤ),
    (∀ i, attempt ≤ i → i < attempt + remaining → o₁ i = o₂ i) →
    fetchLoop o₁ key attempt remaining cs now = fetchLoop o₂ key attempt remaining cs now := by
  intro remaining
  induction remaining with
  | zero =>
    intro attempt cs now _
    simp [fetchLoop]
  | succ r ih =>
    intro attempt cs now hagree
    have h0 : o₁ attempt = o₂ attempt :=
      hagree attempt (Nat.le_refl attempt) (Nat.lt_add_of_pos_right (Nat.succ_pos r))
    have hrest : ∀ i, attempt + 1 ≤ i → i < attempt + 1 + r → o₁ i = o₂ i := by
      intro i h1 h2
      exact hagree i (Nat.le_of_succ_le h1) (by omega)
    cases h : o₂ attempt with
    | exnRaised =>
      by_cases ha : attempt < max_retries - 1
      · simp only [fetchLoop, h0, h, if_pos ha]
        rw [ih (attempt + 1) _ _ hrest]
      · simp [fetchLoop, h0, h, if_neg ha]
    | status429 =>
      simp only [fetchLoop, h0, h]
      rw [ih (attempt + 1) _ _ hrest]
    | status401 => simp [fetchLoop, h0, h]
    | statusOther =>
      by_cases ha : attempt < max_retries - 1
      · simp only [fetchLoop, h0, h, if_pos ha]
        rw [ih (attempt + 1) _ _ hrest]
      · simp [fetchLoop, h0, h, if_neg ha]
    | gqlErrors => simp [fetchLoop, h0, h]
    | matchFound a b => simp [fetchLoop, h0, h]
    | matchMissing => simp [fetchLoop, h0, h]

theorem recordOn_tracker (cs : ClientState) (key : ℕ) (now : ℤ)
    (h : key < cs.trackers.length) :
    (recordOn cs key now).tracker key = (cs.tracker key).record_call now := by
  simp only [recordOn, ClientState.tracker]
  exact getD_set_self cs.trackers key _ emptyTracker h

theorem recordOn_trackers_length (cs : ClientState) (key : ℕ) (now : ℤ) :
    (recordOn cs key now).trackers.length = cs.trackers.length := by
  simp [recordOn]

/-- Call accounting of the retry loop: the calls recorded against the
acquired key's tracker during a loop execution are exactly its attempts that
produced a response; attempts that raised record nothing. -/
theorem fetchLoop_day_calls (oracle : ℕ → AttemptOutcome) (key : ℕ) :
    ∀ (remaining attempt : ℕ) (cs : ClientState) (now : ℤ),
    key < cs.trackers.length →
    (((fetchLoop oracle key attempt remaining cs now).client.tracker key).calls_day).length
      = ((cs.tracker key).calls_day).length
        + countResponses oracle attempt (fetchLoop oracle key attempt remaining cs now).attemptsUsed := by
  intro remaining
  induction remaining with
  | zero =>
    intro attempt cs now _
    simp [fetchLoop, countResponses]
  | succ r ih =>
    intro attempt cs now hkey
    have hrec : ∀ now1 : ℤ, ((recordOn cs key now1).tracker key).calls_day.length
        = (cs.tracker key).calls_day.length + 1 := by
      intro now1
      rw [recordOn_tracker cs key now1 hkey]
      simp [RateLimitTracker.record_call]
    cases h : oracle attempt with
    | exnRaised =>
      by_cases ha : attempt < max_retries - 1
      · simp only [fetchLoop, h, if_pos ha]
        have ih1 := ih (attempt + 1) { cs with network_errors := cs.network_errors + 1 }
          (now + min (10 * (2 : ℤ) ^ attempt) 300) hkey
        simp only [ClientState.tracker] at ih1 ⊢
        rw [ih1]
        simp [countResponses, h]
      · simp [fetchLoop, h, if_neg ha, countResponses, ClientState.tracker]
    | status429 =>
      simp only [fetchLoop, h]
      have hkey1 : key < (rotateKey (bumpFailed (recordOn cs key now))).trackers.length := by
        simpa [rotateKey, bumpFailed, recordOn_trackers_length] using hkey
      have ih1 := ih (attempt + 1) (rotateKey (bumpFailed (recordOn cs key now))) (now + 20) hkey1
      have htr : (rotateKey (bumpFailed (recordOn cs key now))).tracker key
          = (recordOn cs key now).tracker key := rfl
      rw [ih1, htr, hrec now]
      simp [countResponses, h]
      omega
    | status401 =>
      have htr : (fetchLoop oracle key attempt (r + 1) cs now).client.tracker key
          = (rotateKey (bumpFailed (recordOn cs key now))).tracker key := by
        simp [fetchLoop, h]
      rw [htr]
      have : (rotateKey (bumpFailed (recordOn cs key now))).tracker key
          = (recordOn cs key now).tracker key := rfl
      rw [this, hrec now]
      simp [fetchLoop, h, countResponses]
    | statusOther =>
      by_cases ha : attempt < max_retries - 1
      · simp only [fetchLoop, h, if_pos ha]
        have hkey1 : key < (bumpFailed (recordOn cs key now)).trackers.length := by
          simpa [bumpFailed, recordOn_trackers_length] using hkey
        have ih1 := ih (attempt + 1) (bumpFailed (recordOn cs key now))
          (now + 10 * (2 : ℤ) ^ attempt) hkey1
        have htr : (bumpFailed (recordOn cs key now)).tracker key
            = (recordOn cs key now).tracker key := rfl
        rw [ih1, htr, hrec now]
        simp [countResponses, h]
        omega
      · have htr : (fetchLoop oracle key attempt (r + 1) cs now).client.tracker key
            = (bumpFailed (recordOn cs key now)).tracker key := by
          simp [fetchLoop, h, if_neg ha]
        rw [htr]
        have : (bumpFailed (recordOn cs key now)).tracker key
            = (recordOn cs key now).tracker key := rfl
        rw [this, hrec now]
        simp [fetchLoop, h, if_neg ha, countResponses]
    | gqlErrors =>
      have htr : (fetchLoop oracle key attempt (r + 1) cs now).client.tracker key
          = (bumpFailed (recordOn cs key now)).tracker key := by
        simp [fetchLoop, h]
      rw [htr]
      have : (bumpFailed (recordOn cs key now)).tracker key
          = (recordOn cs key now).tracker key := rfl
      rw [this, hrec now]
      simp [fetchLoop, h, countResponses]
    | matchFound a b =>
      have htr : (fetchLoop oracle key attempt (r + 1) cs now).client.tracker key
          = (recordOn cs key now).tracker key := by
        simp [fetchLoop, h]
      rw [htr, hrec now]
      simp [fetchLoop, h, countResponses]
    | matchMissing =>
      have htr : (fetchLoop oracle key attempt (r + 1) cs now).client.tracker key
          = (recordOn cs key now).tracker key := by
        simp [fetchLoop, h]
      rw [htr, hrec now]
      simp [fetchLoop, h, countResponses]

/-! ## Claim theorems: checkpoint subsystem -/

/-- C1: loading the checkpoint written by `save_checkpoint` succeeds and
reconstructs a result store and a processed-id list (hence processed-set)
identical to what was saved, for every state including the empty one and one
where every manifest id is processed. -/
theorem checkpoint_save_load_roundtrip (matchesMap : List (String × Json))
    (pids : List String) (stats : Stats) (ts : ℤ) :
    load_checkpoint (some (save_checkpoint matchesMap pids stats ts))
        = some (save_checkpoint matchesMap pids stats ts) ∧
    resume_matches (save_checkpoint matchesMap pids stats ts) = some matchesMap ∧
    resume_processed_ids (save_checkpoint matchesMap pids stats ts) = some pids ∧
    ((resume_processed_ids (save_checkpoint matchesMap pids stats ts)).getD []).toFinset
        = pids.toFinset := by
  have h3 : resume_processed_ids (save_checkpoint matchesMap pids stats ts) = some pids := by
    show strList (pids.map Json.str) = some pids
    exact strList_map_str pids
  refine ⟨rfl, rfl, h3, ?_⟩
  rw [h3]
  rfl

/-- C2: after resuming from a checkpoint whose processed ids all belong to
the manifest, the work list dispatched by `process_matches` is exactly the
manifest ids minus the processed ids: no processed id is dispatched again,
and no unprocessed manifest id is skipped. -/
theorem resume_dispatches_exact_remainder (matchesMap : List (String × Json))
    (pids : List String) (_hsub : ∀ id ∈ pids, id ∈ matchesMap.map Prod.fst) :
    (resume_match_ids matchesMap pids).toFinset
        = (matchesMap.map Prod.fst).toFinset \ pids.toFinset ∧
    (∀ mid ∈ pids, mid ∉ resume_match_ids matchesMap pids) ∧
    (∀ mid ∈ matchesMap.map Prod.fst, mid ∉ pids → mid ∈ resume_match_ids matchesMap pids) := by
  refine ⟨?_, ?_, ?_⟩
  · ext mid
    simp [resume_match_ids, List.mem_filter]
  · intro mid hm hmem
    exact of_decide_eq_true (List.mem_filter.mp hmem).2 hm
  · intro mid hm hnp
    exact List.mem_filter.mpr ⟨hm, decide_eq_true hnp⟩

/-- Witness for C2 at a concrete manifest of two ids with one processed. -/
theorem resume_dispatches_exact_remainder_witness :
    (∀ id ∈ wPids, id ∈ wMatches.map Prod.fst) ∧
    ((resume_match_ids wMatches wPids).toFinset
        = (wMatches.map Prod.fst).toFinset \ wPids.toFinset ∧
     (∀ mid ∈ wPids, mid ∉ resume_match_ids wMatches wPids) ∧
     (∀ mid ∈ wMatches.map Prod.fst, mid ∉ wPids →
        mid ∈ resume_match_ids wMatches wPids)) :=
  ⟨by decide, resume_dispatches_exact_remainder wMatches wPids (by decide)⟩

/-- C3 counterexample: at a concrete state, the operation trace of
`save_checkpoint` contains no rename at all, every operation targets the
checkpoint path itself, and the very first operation truncates the previous
checkpoint in place — refuting the claim that every save writes to a
temporary location and then renames it over the previous checkpoint. -/
theorem save_checkpoint_no_rename_cex :
    (∀ op ∈ save_checkpoint_ops wMatches wPids wStats 0, op.isRenameFile = false) ∧
    (∀ op ∈ save_checkpoint_ops wMatches wPids wStats 0, op.path = CHECKPOINT_FILE) ∧
    (save_checkpoint_ops wMatches wPids wStats 0).head?
        = some (FileOp.openTruncate CHECKPOINT_FILE) :=
  ⟨by decide, by decide, rfl⟩

/-- C3 amended: every invocation of `save_checkpoint` writes the full state
directly to the checkpoint file — a truncating open of `CHECKPOINT_FILE`
followed by the write of the serialised state into that same path — with no
temporary file and no rename, so the previous checkpoint is destroyed at open
time, before the new content is fully written. -/
theorem save_checkpoint_direct_write (matchesMap : List (String × Json))
    (pids : List String) (stats : Stats) (ts : ℤ) :
    save_checkpoint_ops matchesMap pids stats ts
        = [FileOp.openTruncate CHECKPOINT_FILE,
           FileOp.writeContent CHECKPOINT_FILE (save_checkpoint matchesMap pids stats ts)] ∧
    ∀ op ∈ save_checkpoint_ops matchesMap pids stats ts,
      op.isRenameFile = false ∧ op.path = CHECKPOINT_FILE := by
  refine ⟨rfl, ?_⟩
  intro op hop
  simp only [save_checkpoint_ops, List.mem_cons, List.not_mem_nil, or_false] at hop
  rcases hop with h | h <;> subst h <;> exact ⟨rfl, rfl⟩

/-! ## Claim theorems: rate-limit tracker -/

/-- C6: `can_make_call` first prunes from each window every timestamp at
least as old as the window's duration (keeping exactly the younger ones),
then returns true if and only if every window's remaining count is strictly
below its limit; and a window with zero recorded calls is never the reason it
returns false — whenever it returns false, some saturated window holds a
strictly positive number of calls. -/
theorem can_make_call_contract (tr : RateLimitTracker) (now : ℤ) :
    (tr.can_make_call now = true ↔
      ((tr.clean_old_calls now).calls_second.length < RATE_LIMITS_second ∧
       (tr.clean_old_calls now).calls_minute.length < RATE_LIMITS_minute ∧
       (tr.clean_old_calls now).calls_hour.length < RATE_LIMITS_hour ∧
       (tr.clean_old_calls now).calls_day.length < RATE_LIMITS_day)) ∧
    (∀ x, x ∈ (tr.clean_old_calls now).calls_second ↔
        x ∈ tr.calls_second ∧ now - x < 10) ∧
    (∀ x, x ∈ (tr.clean_old_calls now).calls_minute ↔
        x ∈ tr.calls_minute ∧ now - x < 600) ∧
    (∀ x, x ∈ (tr.clean_old_calls now).calls_hour ↔
        x ∈ tr.calls_hour ∧ now - x < 36000) ∧
    (∀ x, x ∈ (tr.clean_old_calls now).calls_day ↔
        x ∈ tr.calls_day ∧ now - x < 864000) ∧
    (tr.can_make_call now = false →
      (0 < (tr.clean_old_calls now).calls_second.length ∧
        RATE_LIMITS_second ≤ (tr.clean_old_calls now).calls_second.length) ∨
      (0 < (tr.clean_old_calls now).calls_minute.length ∧
        RATE_LIMITS_minute ≤ (tr.clean_old_calls now).calls_minute.length) ∨
      (0 < (tr.clean_old_calls now).calls_hour.length ∧
        RATE_LIMITS_hour ≤ (tr.clean_old_calls now).calls_hour.length) ∨
      (0 < (tr.clean_old_calls now).calls_day.length ∧
        RATE_LIMITS_day ≤ (tr.clean_old_calls now).calls_day.length)) := by
  refine ⟨can_make_call_iff tr now, ?_, ?_, ?_, ?_, ?_⟩
  · intro x
    simp [RateLimitTracker.clean_old_calls, List.mem_filter]
  · intro x
    simp [RateLimitTracker.clean_old_calls, List.mem_filter]
  · intro x
    simp [RateLimitTracker.clean_old_calls, List.mem_filter]
  · intro x
    simp [RateLimitTracker.clean_old_calls, List.mem_filter]
  · intro hfalse
    have hnot : ¬ ((tr.clean_old_calls now).calls_second.length < RATE_LIMITS_second ∧
        (tr.clean_old_calls now).calls_minute.length < RATE_LIMITS_minute ∧
        (tr.clean_old_calls now).calls_hour.length < RATE_LIMITS_hour ∧
        (tr.clean_old_calls now).calls_day.length < RATE_LIMITS_day) := by
      intro hall
      rw [(can_make_call_iff tr now).mpr hall] at hfalse
      cases hfalse
    simp only [RATE_LIMITS_second, RATE_LIMITS_minute, RATE_LIMITS_hour,
      RATE_LIMITS_day] at hnot ⊢
    omega

/-- C7 counterexample: for a tracker that recorded sixteen calls inside the
current second (one at instant 0, fifteen at instant 5 — reachable, since
`record_call` never refuses to record), advancing the clock from instant 9 by
exactly `time_until_available()` (which is 1, a tenth of a second) prunes only
the oldest call
and leaves fifteen in the one-second window, so `can_make_call()` still
returns false — refuting the claim for arbitrary tracker states. -/
theorem time_until_available_boundary_cex :
    overfullTracker.can_make_call
        (9 + overfullTracker.time_until_available 9) = false := by
  decide

/-- C7 amended: the boundary property does hold for every tracker state in
which no window holds more timestamps than its limit after pruning at the
current time (the states the acquire-gated engine is meant to produce): if
`t = time_until_available()`, then `can_make_call()` returns true after
advancing the clock by exactly `t` with no intervening `record_call`. -/
theorem time_until_available_boundary (tr : RateLimitTracker) (now : ℤ)
    (hs : (tr.clean_old_calls now).calls_second.length ≤ RATE_LIMITS_second)
    (hm : (tr.clean_old_calls now).calls_minute.length ≤ RATE_LIMITS_minute)
    (hh : (tr.clean_old_calls now).calls_hour.length ≤ RATE_LIMITS_hour)
    (hd : (tr.clean_old_calls now).calls_day.length ≤ RATE_LIMITS_day) :
    tr.can_make_call (now + tr.time_until_available now) = true := by
  set t := tr.time_until_available now with htdef
  have ht : 0 ≤ t := time_until_available_nonneg tr now
  refine (can_make_call_iff tr (now + t)).mpr ⟨?_, ?_, ?_, ?_⟩
  · refine window_clears_at tr.calls_second now t 10 RATE_LIMITS_second (by decide) ht hs ?_
    intro hsat
    have hsat' : RATE_LIMITS_second ≤ (tr.clean_old_calls now).calls_second.length := hsat
    refine mem_waitTimes_le ?_
    simp only [RateLimitTracker.waitTimes, List.mem_append]
    exact Or.inl (Or.inl (Or.inl (by rw [if_pos hsat']; exact List.mem_singleton_self _)))
  · refine window_clears_at tr.calls_minute now t 600 RATE_LIMITS_minute (by decide) ht hm ?_
    intro hsat
    have hsat' : RATE_LIMITS_minute ≤ (tr.clean_old_calls now).calls_minute.length := hsat
    refine mem_waitTimes_le ?_
    simp only [RateLimitTracker.waitTimes, List.mem_append]
    exact Or.inl (Or.inl (Or.inr (by rw [if_pos hsat']; exact List.mem_singleton_self _)))
  · refine window_clears_at tr.calls_hour now t 36000 RATE_LIMITS_hour (by decide) ht hh ?_
    intro hsat
    have hsat' : RATE_LIMITS_hour ≤ (tr.clean_old_calls now).calls_hour.length := hsat
    refine mem_waitTimes_le ?_
    simp only [RateLimitTracker.waitTimes, List.mem_append]
    exact Or.inl (Or.inr (by rw [if_pos hsat']; exact List.mem_singleton_self _))
  · refine window_clears_at tr.calls_day now t 864000 RATE_LIMITS_day (by decide) ht hd ?_
    intro hsat
    have hsat' : RATE_LIMITS_day ≤ (tr.clean_old_calls now).calls_day.length := hsat
    refine mem_waitTimes_le ?_
    simp only [RateLimitTracker.waitTimes, List.mem_append]
    exact Or.inr (by rw [if_pos hsat']; exact List.mem_singleton_self _)

/-- Witness for the amended C7 at a tracker holding one call. -/
theorem time_until_available_boundary_witness :
    ((wTracker.clean_old_calls 0).calls_second.length ≤ RATE_LIMITS_second ∧
     (wTracker.clean_old_calls 0).calls_minute.length ≤ RATE_LIMITS_minute ∧
     (wTracker.clean_old_calls 0).calls_hour.length ≤ RATE_LIMITS_hour ∧
     (wTracker.clean_old_calls 0).calls_day.length ≤ RATE_LIMITS_day) ∧
    wTracker.can_make_call (0 + wTracker.time_until_available 0) = true :=
  ⟨⟨by decide, by decide, by decide, by decide⟩,
   time_until_available_boundary wTracker 0 (by decide) (by decide) (by decide) (by decide)⟩

/-- C5 counterexample: a full dispatch of `fetch_single_match_league_data`
from a single-key client whose tracker holds 199 calls the engine could have
made within the last minute.  The acquire check passes (199 < 200), the first
attempt records call 200, receives HTTP 429 and retries after two seconds on
the same key without re-acquiring, recording call 201 — at that point 201
calls recorded against the credential fall within the trailing 60-second
window, exceeding the configured limit of 200. -/
theorem retry_exceeds_minute_limit_cex :
    (fetch_single_match_league_data oracle429Once 1 clientNearMinuteLimit 150).map
        (fun r => windowCount (r.client.tracker 0).calls_minute r.time 600) = some 201 ∧
    RATE_LIMITS_minute < 201 := by
  constructor
  · decide
  · decide

/-- C5 amended: the sliding-window invariant holds exactly for the calls the
acquire path guards: if `can_make_call` passes at the moment a call is
recorded, then from that moment on no trailing window of the credential holds
more than its limit.  Internal retry iterations skip this check
(`retry_exceeds_minute_limit_cex`), which is the only way the bound fails. -/
theorem guarded_record_respects_limits (tr : RateLimitTracker) (now now' : ℤ)
    (hcan : tr.can_make_call now = true) (hle : now ≤ now') :
    windowCount (tr.record_call now).calls_second now' 10 ≤ RATE_LIMITS_second ∧
    windowCount (tr.record_call now).calls_minute now' 600 ≤ RATE_LIMITS_minute ∧
    windowCount (tr.record_call now).calls_hour now' 36000 ≤ RATE_LIMITS_hour ∧
    windowCount (tr.record_call now).calls_day now' 864000 ≤ RATE_LIMITS_day := by
  have h := (can_make_call_iff tr now).mp hcan
  exact ⟨guarded_record_window tr.calls_second now now' 10 RATE_LIMITS_second h.1 hle,
         guarded_record_window tr.calls_minute now now' 600 RATE_LIMITS_minute h.2.1 hle,
         guarded_record_window tr.calls_hour now now' 36000 RATE_LIMITS_hour h.2.2.1 hle,
         guarded_record_window tr.calls_day now now' 864000 RATE_LIMITS_day h.2.2.2 hle⟩

/-- Witness for the amended C5 at a tracker holding one call. -/
theorem guarded_record_respects_limits_witness :
    (wTracker.can_make_call 0 = true ∧ (0 : ℤ) ≤ 1) ∧
    (windowCount (wTracker.record_call 0).calls_second 1 10 ≤ RATE_LIMITS_second ∧
     windowCount (wTracker.record_call 0).calls_minute 1 600 ≤ RATE_LIMITS_minute ∧
     windowCount (wTracker.record_call 0).calls_hour 1 36000 ≤ RATE_LIMITS_hour ∧
     windowCount (wTracker.record_call 0).calls_day 1 864000 ≤ RATE_LIMITS_day) :=
  ⟨⟨by decide, by norm_num⟩,
   guarded_record_respects_limits wTracker 0 1 (by decide) (by norm_num)⟩

/-! ## Claim theorems: dispatch engine -/

/-- C4 counterexample: a dispatched item receives three consecutive network
exceptions (Transient failures) and then a Success.  The item ends done with
the successful payload, but exactly 1 call — not 4 — is recorded against the
credential's tracker, because `record_call` runs only after `scraper.post`
returns a response: an attempt terminating in a raised exception records no
call at all. -/
theorem exn_attempts_record_no_call_cex :
    (fetchLoop oracleExn3 0 0 max_retries (initClient ["k"]) 0).result
        = some ⟨some 100, some "Major", some 2⟩ ∧
    ((fetchLoop oracleExn3 0 0 max_retries (initClient ["k"]) 0).client.tracker 0).calls_day.length
        = 1 ∧
    ((fetchLoop oracleExn3 0 0 max_retries (initClient ["k"]) 0).client.tracker 0).calls_day.length
        ≠ 4 :=
  ⟨by decide, by decide, by decide⟩

/-- C4 amended: during one dispatch, the calls recorded against the acquired
credential's tracker are exactly the attempts that produced a response —
every response-terminated attempt (success, 429, 401, other status, or
application error) records exactly one call, and every attempt that raised an
exception (e.g., a network timeout) records none, incrementing
`network_errors` instead.  So three 5xx-response Transients plus a Success
record 4 calls, while three exception Transients plus a Success record 1. -/
theorem calls_recorded_eq_response_attempts (oracle : ℕ → AttemptOutcome) (key : ℕ)
    (cs : ClientState) (now : ℤ) (h : key < cs.trackers.length) :
    (((fetchLoop oracle key 0 max_retries cs now).client.tracker key).calls_day).length
      = ((cs.tracker key).calls_day).length
        + countResponses oracle 0 (fetchLoop oracle key 0 max_retries cs now).attemptsUsed :=
  fetchLoop_day_calls oracle key max_retries 0 cs now h

/-- Witness for the amended C4: the three-exceptions-then-success run records
one response attempt. -/
theorem calls_recorded_eq_response_attempts_witness :
    0 < (initClient ["k"]).trackers.length ∧
    (((fetchLoop oracleExn3 0 0 max_retries (initClient ["k"]) 0).client.tracker 0).calls_day).length
      = (((initClient ["k"]).tracker 0).calls_day).length
        + countResponses oracleExn3 0
            (fetchLoop oracleExn3 0 0 max_retries (initClient ["k"]) 0).attemptsUsed :=
  ⟨by decide,
   calls_recorded_eq_response_attempts oracleExn3 0 (initClient ["k"]) 0 (by decide)⟩

/-- C8 counterexample: with two fresh keys, item A acquires key 0 and
receives an Unauthorized (401) response; item B then acquires key 1 and also
receives a 401; the next acquisition returns key 0 again — the credential
that was rejected with Unauthorized is handed out by a later `acquire()`,
refuting the claim that it is revoked for the remainder of the run (the
dispatcher also gave the 401 item up immediately instead of retrying it with
a different credential). -/
theorem unauthorized_key_reacquired_cex :
    (wait_for_available_key 1 clientTwoKeys 0).map (fun acq => acq.1) = some 0 ∧
    ((fetch_single_match_league_data oracle401 1 clientTwoKeys 0).bind (fun rA =>
      (fetch_single_match_league_data oracle401 1 rA.client rA.time).bind (fun rB =>
        (wait_for_available_key 1 rB.client rB.time).map (fun acq => acq.1)))) = some 0 :=
  ⟨by decide, by decide⟩

/-- C8 amended: on an Unauthorized (HTTP 401) response the dispatcher records
the call, increments `failed_calls`, advances `current_key_index` by one
modulo the key count, and returns the empty result for the item after that
single attempt.  No revocation state exists: the key list is unchanged, so
the rejected credential remains eligible for later acquisition
(`unauthorized_key_reacquired_cex`), and no pool-exhausted condition can
arise from 401s. -/
theorem unauthorized_rotate_no_revoke (oracle : ℕ → AttemptOutcome)
    (key attempt remaining : ℕ) (cs : ClientState) (now : ℤ)
    (h : oracle attempt = AttemptOutcome.status401) :
    (fetchLoop oracle key attempt (remaining + 1) cs now).result = none ∧
    (fetchLoop oracle key attempt (remaining + 1) cs now).client.api_keys = cs.api_keys ∧
    (fetchLoop oracle key attempt (remaining + 1) cs now).client.trackers
        = cs.trackers.set key ((cs.tracker key).record_call now) ∧
    (fetchLoop oracle key attempt (remaining + 1) cs now).client.current_key_index
        = (cs.current_key_index + 1) % cs.api_keys.length ∧
    (fetchLoop oracle key attempt (remaining + 1) cs now).client.failed_calls
        = cs.failed_calls + 1 ∧
    (fetchLoop oracle key attempt (remaining + 1) cs now).attemptsUsed = 1 := by
  simp [fetchLoop, h, recordOn, rotateKey, bumpFailed, ClientState.tracker]

/-- Witness for the amended C8 at the two-key client. -/
theorem unauthorized_rotate_no_revoke_witness :
    oracle401 0 = AttemptOutcome.status401 ∧
    ((fetchLoop oracle401 0 0 5 clientTwoKeys 0).result = none ∧
     (fetchLoop oracle401 0 0 5 clientTwoKeys 0).client.api_keys = clientTwoKeys.api_keys ∧
     (fetchLoop oracle401 0 0 5 clientTwoKeys 0).client.trackers
        = clientTwoKeys.trackers.set 0 ((clientTwoKeys.tracker 0).record_call 0) ∧
     (fetchLoop oracle401 0 0 5 clientTwoKeys 0).client.current_key_index
        = (clientTwoKeys.current_key_index + 1) % clientTwoKeys.api_keys.length ∧
     (fetchLoop oracle401 0 0 5 clientTwoKeys 0).client.failed_calls
        = clientTwoKeys.failed_calls + 1 ∧
     (fetchLoop oracle401 0 0 5 clientTwoKeys 0).attemptsUsed = 1) :=
  ⟨rfl, unauthorized_rotate_no_revoke oracle401 0 0 4 clientTwoKeys 0 rfl⟩

/-- C9 counterexample: an item that fails permanently (five raised exceptions
exhaust every attempt) and an item the service successfully confirms as
having no league (a 200 response whose match carries a null `leagueId` and no
league object) receive identical entries in the merged output — the
all-`None` marker written for failures is the very entry produced for
confirmed absence, so the two are not distinguishable. -/
theorem failed_marker_indistinguishable_cex :
    merge_league_data (fetchLoop oracleAllExn 0 0 max_retries (initClient ["k"]) 0).result
      = merge_league_data (fetchLoop oracleNoLeague 0 0 max_retries (initClient ["k"]) 0).result ∧
    merge_league_data (fetchLoop oracleAllExn 0 0 max_retries (initClient ["k"]) 0).result
      = ⟨none, none, none⟩ :=
  ⟨by decide, by decide⟩

/-- C9 amended: every permanently-failed item does carry the explicit
all-`None` marker in the merged output, but that marker is exactly the entry
a confirmed-absent item gets: the merge step writes `⟨none, none, none⟩`
precisely for the empty-dict result and for a successful result whose three
fields are all `None`. -/
theorem failed_items_get_none_marker (oracle : ℕ → AttemptOutcome) (key : ℕ)
    (cs : ClientState) (now : ℤ)
    (hexn : ∀ i, oracle i = AttemptOutcome.exnRaised) :
    merge_league_data (fetchLoop oracle key 0 max_retries cs now).result
        = ⟨none, none, none⟩ ∧
    ∀ r : Option LeagueData, merge_league_data r = ⟨none, none, none⟩ ↔
        (r = none ∨ r = some ⟨none, none, none⟩) := by
  constructor
  · rw [fetchLoop_result_none_of_all_exn oracle key hexn max_retries 0 cs now]
    rfl
  · intro r
    cases r with
    | none => simp [merge_league_data]
    | some d => simp [merge_league_data]

/-- Witness for the amended C9 at the all-exceptions run. -/
theorem failed_items_get_none_marker_witness :
    (∀ i, oracleAllExn i = AttemptOutcome.exnRaised) ∧
    (merge_league_data (fetchLoop oracleAllExn 0 0 max_retries (initClient ["k"]) 0).result
        = ⟨none, none, none⟩ ∧
     ∀ r : Option LeagueData, merge_league_data r = ⟨none, none, none⟩ ↔
        (r = none ∨ r = some ⟨none, none, none⟩)) :=
  ⟨fun _ => rfl, failed_items_get_none_marker oracleAllExn 0 (initClient ["k"]) 0 (fun _ => rfl)⟩

/-- C10: the retry loop of `fetch_single_match_league_data` is total at the
item level: its outcome is determined by the first `max_retries = 5` oracle
values (so it terminates after at most 5 attempts), it executes at most 5
attempts, and when every attempt raises an exception the exceptions are all
caught and the exhausted loop returns the empty dict instead of propagating. -/
theorem fetch_loop_total_bounded (o₁ o₂ : ℕ → AttemptOutcome) (key : ℕ)
    (cs : ClientState) (now : ℤ) (h : ∀ i, i < max_retries → o₁ i = o₂ i) :
    fetchLoop o₁ key 0 max_retries cs now = fetchLoop o₂ key 0 max_retries cs now ∧
    (fetchLoop o₁ key 0 max_retries cs now).attemptsUsed ≤ max_retries ∧
    ((∀ i, o₁ i = AttemptOutcome.exnRaised) →
      (fetchLoop o₁ key 0 max_retries cs now).result = none) := by
  refine ⟨fetchLoop_oracle_agree o₁ o₂ key max_retries 0 cs now ?_,
    fetchLoop_attemptsUsed_le o₁ key max_retries 0 cs now,
    fun hexn => fetchLoop_result_none_of_all_exn o₁ key hexn max_retries 0 cs now⟩
  intro i _ hlt
  exact h i (by simpa using hlt)

/-- Witness for C10 at the all-exceptions oracle. -/
theorem fetch_loop_total_bounded_witness :
    (∀ i, i < max_retries → oracleAllExn i = oracleAllExn i) ∧
    (fetchLoop oracleAllExn 0 0 max_retries (initClient ["k"]) 0
        = fetchLoop oracleAllExn 0 0 max_retries (initClient ["k"]) 0 ∧
     (fetchLoop oracleAllExn 0 0 max_retries (initClient ["k"]) 0).attemptsUsed ≤ max_retries ∧
     ((∀ i, oracleAllExn i = AttemptOutcome.exnRaised) →
       (fetchLoop oracleAllExn 0 0 max_retries (initClient ["k"]) 0).result = none)) :=
  ⟨fun _ _ => rfl,
   fetch_loop_total_bounded oracleAllExn oracleAllExn 0 (initClient ["k"]) 0 (fun _ _ => rfl)⟩

end StratzSpec
